import Mathlib

/-!
# Verification of the qqbot channel adapter

Shallow embedding of the qqbot channel plugin sources:

* `outbound.ts` (`parseTarget`, `sendText`, `sendProactiveMessage`),
* `channel.ts` (`targetResolver.looksLikeId`, the gateway status
  callbacks and `buildAccountSnapshot`),
* the access-token cache of the platform client, which is not part of
  the sources and is therefore modelled from the specification.

Strings are modelled as lists of characters (`Str`), so that the
JavaScript string operations (`startsWith`, `slice`, `replace` of a
leading prefix) become list operations that can be reasoned about
universally.
-/

namespace QQBot

/-- JavaScript strings, modelled as character sequences. -/
abbrev Str := List Char

/-- Conversion from Lean string literals, used for concrete inputs. -/
def str (s : String) : Str := s.data

/-- The channel-name prefix `"qqbot:"` stripped by the target parser. -/
def qqbotPrefix : Str := str "qqbot:"

/-- `to.replace(/^qqbot:/i, "")`: remove one leading, case-insensitive
occurrence of `"qqbot:"`. -/
def stripQQBotPrefix (s : Str) : Str :=
  if (s.take 6).map Char.toLower = qqbotPrefix then s.drop 6 else s

/-- The three chat surfaces of `parseTarget` in `outbound.ts`
(`"c2c"` is the spec's `directMessage`, the other two match the
spec's `group` and `channel`). -/
inductive Surface where
  | c2c
  | group
  | channel
deriving DecidableEq, Repr

/-- A parsed target: surface plus embedded id. -/
structure Target where
  type : Surface
  id : Str
deriving DecidableEq, Repr

def c2cPrefix : Str := str "c2c:"
def groupPrefix : Str := str "group:"
def channelPrefix : Str := str "channel:"

/-- `parseTarget` from `outbound.ts`: strip the optional `qqbot:`
prefix, then dispatch on the surface prefix, defaulting to c2c. -/
def parseTarget (dest : Str) : Target :=
  let id := stripQQBotPrefix dest
  if c2cPrefix.isPrefixOf id then ⟨.c2c, id.drop 4⟩
  else if groupPrefix.isPrefixOf id then ⟨.group, id.drop 6⟩
  else if channelPrefix.isPrefixOf id then ⟨.channel, id.drop 8⟩
  else ⟨.c2c, id⟩

/-- One character of the regex class `[A-F0-9]` under the `i` flag. -/
def isHexChar (c : Char) : Bool :=
  (('0' ≤ c) && (c ≤ '9')) || (('A' ≤ c) && (c ≤ 'F')) || (('a' ≤ c) && (c ≤ 'f'))

/-- The regex `/^[A-F0-9]{32}$/i` of `channel.ts`. -/
def isHex32 (s : Str) : Bool :=
  s.length = 32 && s.all isHexChar

/-- `targetResolver.looksLikeId` from `channel.ts`. -/
def looksLikeId (id : Str) : Bool :=
  let normalized := stripQQBotPrefix id
  if c2cPrefix.isPrefixOf normalized || groupPrefix.isPrefixOf normalized
      || channelPrefix.isPrefixOf normalized then true
  else if isHex32 normalized then true
  else false

example : parseTarget (str "qqbot:c2c:abc") = ⟨.c2c, str "abc"⟩ := by decide
example : parseTarget (str "QQbot:group:G1") = ⟨.group, str "G1"⟩ := by decide
example : parseTarget (str "foo") = ⟨.c2c, str "foo"⟩ := by decide
example : parseTarget (str "group:") = ⟨.group, []⟩ := by decide
example : parseTarget (str "xyz:abc") = ⟨.c2c, str "xyz:abc"⟩ := by decide
example : looksLikeId (str "foo") = false := by decide
example : looksLikeId (str "qqbot:channel:9") = true := by decide
example : looksLikeId (str "0123456789abcdef0123456789ABCDEF") = true := by decide

/-! ## Outbound dispatcher (`outbound.ts`) -/

/-- JavaScript truthiness of an optional string: `undefined`, `null`
and `""` are falsy. -/
def truthy : Option Str → Bool
  | none => false
  | some s => !s.isEmpty

/-- The fields of `ResolvedQQBotAccount` (per the spec's
`AccountConfig`) that the outbound dispatcher reads. -/
structure ResolvedQQBotAccount where
  accountId : Str
  enabled : Bool
  appId : Option Str
  clientSecret : Option Str
  name : Option Str
deriving DecidableEq, Repr

/-- Message timestamps are `string|number` on the wire. -/
abbrev Timestamp := Str ⊕ Nat

/-- The `{id, timestamp}` result of a platform send operation
(shape taken from the spec's client interface). -/
structure ApiMsgResult where
  id : Str
  timestamp : Timestamp
deriving DecidableEq, Repr

/-- One behaviour of the platform client (`api.js`): every operation
either returns a result or throws an exception carrying a message. -/
structure Client where
  getAccessToken : Str → Str → Except Str Str
  sendC2CMessage : Str → Str → Str → Option Str → Except Str ApiMsgResult
  sendGroupMessage : Str → Str → Str → Option Str → Except Str ApiMsgResult
  sendChannelMessage : Str → Str → Str → Option Str → Except Str ApiMsgResult
  sendProactiveC2CMessage : Str → Str → Str → Except Str ApiMsgResult
  sendProactiveGroupMessage : Str → Str → Str → Except Str ApiMsgResult

/-- Observable network calls made by the dispatcher, recorded with
their arguments. -/
inductive ApiCall where
  | getAccessToken (appId clientSecret : Str)
  | sendC2C (token id text : Str) (replyToId : Option Str)
  | sendGroup (token id text : Str) (replyToId : Option Str)
  | sendChannel (token id text : Str) (replyToId : Option Str)
  | sendProactiveC2C (token id text : Str)
  | sendProactiveGroup (token id text : Str)
deriving DecidableEq, Repr

/-- `OutboundContext` from `outbound.ts`. -/
structure OutboundContext where
  dest : Str
  text : Str
  accountId : Option Str
  replyToId : Option Str
  account : ResolvedQQBotAccount
deriving DecidableEq, Repr

/-- `OutboundResult` from `outbound.ts`; a field that the code does
not set is `none`. -/
structure OutboundResult where
  channel : Str
  messageId : Option Str
  timestamp : Option Timestamp
  error : Option Str
deriving DecidableEq, Repr

def qqbotChannel : Str := str "qqbot"

/-- The error message of the not-configured short circuit in
`sendText` and `sendProactiveMessage`. -/
def notConfiguredMsg : Str :=
  str "QQBot not configured (missing appId or clientSecret)"

/-- Outcome built from one awaited send operation: on success
`{messageId: result.id, timestamp: result.timestamp}`, on a thrown
exception the surrounding `catch` yields `{error: message}`. -/
def mkOutcome : Except Str ApiMsgResult → OutboundResult
  | .ok r => ⟨qqbotChannel, some r.id, some r.timestamp, none⟩
  | .error m => ⟨qqbotChannel, none, none, some m⟩

/-- `sendText` from `outbound.ts`, instrumented with the list of
platform calls it performs (in order). -/
def sendText (client : Client) (ctx : OutboundContext) :
    OutboundResult × List ApiCall :=
  let account := ctx.account
  if !truthy account.appId || !truthy account.clientSecret then
    (⟨qqbotChannel, none, none, some notConfiguredMsg⟩, [])
  else
    let appId := account.appId.getD []
    let clientSecret := account.clientSecret.getD []
    let tokCall := ApiCall.getAccessToken appId clientSecret
    match client.getAccessToken appId clientSecret with
    | .error m => (⟨qqbotChannel, none, none, some m⟩, [tokCall])
    | .ok accessToken =>
      let target := parseTarget ctx.dest
      if !truthy ctx.replyToId then
        match target.type with
        | .c2c =>
          (mkOutcome (client.sendProactiveC2CMessage accessToken target.id ctx.text),
           [tokCall, .sendProactiveC2C accessToken target.id ctx.text])
        | .group =>
          (mkOutcome (client.sendProactiveGroupMessage accessToken target.id ctx.text),
           [tokCall, .sendProactiveGroup accessToken target.id ctx.text])
        | .channel =>
          (mkOutcome (client.sendChannelMessage accessToken target.id ctx.text none),
           [tokCall, .sendChannel accessToken target.id ctx.text none])
      else
        match target.type with
        | .c2c =>
          (mkOutcome (client.sendC2CMessage accessToken target.id ctx.text ctx.replyToId),
           [tokCall, .sendC2C accessToken target.id ctx.text ctx.replyToId])
        | .group =>
          (mkOutcome (client.sendGroupMessage accessToken target.id ctx.text ctx.replyToId),
           [tokCall, .sendGroup accessToken target.id ctx.text ctx.replyToId])
        | .channel =>
          (mkOutcome (client.sendChannelMessage accessToken target.id ctx.text ctx.replyToId),
           [tokCall, .sendChannel accessToken target.id ctx.text ctx.replyToId])

/-- `sendProactiveMessage` from `outbound.ts`, instrumented the same
way. -/
def sendProactiveMessage (client : Client) (account : ResolvedQQBotAccount)
    (dest text : Str) : OutboundResult × List ApiCall :=
  if !truthy account.appId || !truthy account.clientSecret then
    (⟨qqbotChannel, none, none, some notConfiguredMsg⟩, [])
  else
    let appId := account.appId.getD []
    let clientSecret := account.clientSecret.getD []
    let tokCall := ApiCall.getAccessToken appId clientSecret
    match client.getAccessToken appId clientSecret with
    | .error m => (⟨qqbotChannel, none, none, some m⟩, [tokCall])
    | .ok accessToken =>
      let target := parseTarget dest
      match target.type with
      | .c2c =>
        (mkOutcome (client.sendProactiveC2CMessage accessToken target.id text),
         [tokCall, .sendProactiveC2C accessToken target.id text])
      | .group =>
        (mkOutcome (client.sendProactiveGroupMessage accessToken target.id text),
         [tokCall, .sendProactiveGroup accessToken target.id text])
      | .channel =>
        (mkOutcome (client.sendChannelMessage accessToken target.id text none),
         [tokCall, .sendChannel accessToken target.id text none])

/-- The exception message (if any) a given client produces on a given
call. -/
def callErr (client : Client) : ApiCall → Option Str
  | .getAccessToken a s =>
    match client.getAccessToken a s with
    | .error m => some m
    | .ok _ => none
  | .sendC2C t i x r =>
    match client.sendC2CMessage t i x r with
    | .error m => some m
    | .ok _ => none
  | .sendGroup t i x r =>
    match client.sendGroupMessage t i x r with
    | .error m => some m
    | .ok _ => none
  | .sendChannel t i x r =>
    match client.sendChannelMessage t i x r with
    | .error m => some m
    | .ok _ => none
  | .sendProactiveC2C t i x =>
    match client.sendProactiveC2CMessage t i x with
    | .error m => some m
    | .ok _ => none
  | .sendProactiveGroup t i x =>
    match client.sendProactiveGroupMessage t i x with
    | .error m => some m
    | .ok _ => none

/-- A client whose operations all succeed with fixed responses; used
for concrete tests and witnesses. -/
def okClient : Client where
  getAccessToken := fun _ _ => .ok (str "TOK")
  sendC2CMessage := fun _ _ _ _ => .ok ⟨str "m1", .inr 1⟩
  sendGroupMessage := fun _ _ _ _ => .ok ⟨str "m2", .inr 2⟩
  sendChannelMessage := fun _ _ _ _ => .ok ⟨str "m3", .inr 3⟩
  sendProactiveC2CMessage := fun _ _ _ => .ok ⟨str "m4", .inr 4⟩
  sendProactiveGroupMessage := fun _ _ _ => .ok ⟨str "m5", .inr 5⟩

/-- A configured account used for concrete tests and witnesses. -/
def sampleAccount : ResolvedQQBotAccount :=
  ⟨str "default", true, some (str "app"), some (str "sec"), none⟩

/-- A client whose token issuance throws; used for concrete
error-path witnesses. -/
def tokenErrClient : Client where
  getAccessToken := fun _ _ => .error (str "boom")
  sendC2CMessage := fun _ _ _ _ => .ok ⟨str "m1", .inr 1⟩
  sendGroupMessage := fun _ _ _ _ => .ok ⟨str "m2", .inr 2⟩
  sendChannelMessage := fun _ _ _ _ => .ok ⟨str "m3", .inr 3⟩
  sendProactiveC2CMessage := fun _ _ _ => .ok ⟨str "m4", .inr 4⟩
  sendProactiveGroupMessage := fun _ _ _ => .ok ⟨str "m5", .inr 5⟩

example :
    sendText okClient ⟨str "c2c:U", str "hi", none, none, sampleAccount⟩ =
      (⟨qqbotChannel, some (str "m4"), some (.inr 4), none⟩,
       [.getAccessToken (str "app") (str "sec"),
        .sendProactiveC2C (str "TOK") (str "U") (str "hi")]) := by decide

example :
    sendText okClient ⟨str "group:G1", str "hi", none, some (str "msg-42"), sampleAccount⟩ =
      (⟨qqbotChannel, some (str "m2"), some (.inr 2), none⟩,
       [.getAccessToken (str "app") (str "sec"),
        .sendGroup (str "TOK") (str "G1") (str "hi") (some (str "msg-42"))]) := by decide

example :
    sendText okClient ⟨str "c2c:U", str "hi", none, some [], sampleAccount⟩ =
      (⟨qqbotChannel, some (str "m4"), some (.inr 4), none⟩,
       [.getAccessToken (str "app") (str "sec"),
        .sendProactiveC2C (str "TOK") (str "U") (str "hi")]) := by decide

example :
    sendText okClient ⟨str "c2c:U", str "hi", none, none,
        ⟨str "default", true, none, some (str "sec"), none⟩⟩ =
      (⟨qqbotChannel, none, none, some notConfiguredMsg⟩, []) := by decide

/-! ## Gateway status (`channel.ts`) -/

/-- The per-account runtime status record (`SessionStatus` in the
spec). -/
structure SessionRuntime where
  accountId : Str
  running : Bool
  connected : Bool
  lastConnectedAt : Option Nat
  lastError : Option Str
deriving DecidableEq, Repr

/-- `status.defaultRuntime` from `channel.ts`. -/
def defaultRuntime : SessionRuntime :=
  ⟨str "default", false, false, none, none⟩

/-- The status write performed by the gateway `onReady` callback in
`channel.ts`: spread the current status, set `running`, `connected`
and `lastConnectedAt`. -/
def onReadyUpdate (now : Nat) (s : SessionRuntime) : SessionRuntime :=
  { s with running := true, connected := true, lastConnectedAt := some now }

/-- The status write performed by the gateway `onError` callback in
`channel.ts`: spread the current status, set `lastError`. -/
def onErrorUpdate (msg : Str) (s : SessionRuntime) : SessionRuntime :=
  { s with lastError := some msg }

/-- Gateway callback events, in the order the session fires them. -/
inductive GatewayEvent where
  | ready (now : Nat)
  | gwError (msg : Str)
deriving DecidableEq, Repr

/-- Fold the callback writes over a status record. -/
def applyEvents (evs : List GatewayEvent) (s : SessionRuntime) : SessionRuntime :=
  match evs with
  | [] => s
  | .ready now :: rest => applyEvents rest (onReadyUpdate now s)
  | .gwError m :: rest => applyEvents rest (onErrorUpdate m s)

/-- The status snapshot built by `status.buildAccountSnapshot` in
`channel.ts` (the fields relevant to the invariant; `??` defaults
apply when `runtime` is absent). -/
structure AccountSnapshot where
  accountId : Str
  configured : Bool
  running : Bool
  connected : Bool
  lastConnectedAt : Option Nat
  lastError : Option Str
deriving DecidableEq, Repr

/-- `status.buildAccountSnapshot` from `channel.ts`. -/
def buildAccountSnapshot (account : Option ResolvedQQBotAccount)
    (runtime : Option SessionRuntime) : AccountSnapshot :=
  { accountId := (account.map (·.accountId)).getD (str "default")
    configured := truthy (account.bind (·.appId)) && truthy (account.bind (·.clientSecret))
    running := (runtime.map (·.running)).getD false
    connected := (runtime.map (·.connected)).getD false
    lastConnectedAt := (runtime.bind (·.lastConnectedAt))
    lastError := (runtime.bind (·.lastError)) }

/-! ## Access-token cache

Modelled from the spec: the platform client's token issuance and its
cache (`api.js`, §4.2 AccessTokenCache) are not part of the sources.
The model is a per-key state machine: a request either hits a valid
cached token, joins an in-flight issuance, or starts a new issuance;
a completion delivers its token to every coalesced waiter. -/

/-- An issued access token with its expiry. -/
structure AccessToken where
  value : Str
  expiresAt : Nat
deriving DecidableEq, Repr

/-- Cache state for one credential key. `pending = some ws` means one
issuance is in flight with `ws` as the coalesced waiters; `results`
records what each caller has received. -/
structure CacheState where
  cached : Option AccessToken
  pending : Option (List Nat)
  results : Nat → Option (Except Str AccessToken)

/-- Modelled from the spec: the cache considers a token valid while
`now < expiresAt - safetyMargin`. -/
def tokenValid (margin now : Nat) (t : AccessToken) : Bool :=
  now + margin < t.expiresAt

/-- Requests arriving at the cache and issuance completions. -/
inductive CacheOp where
  | arrive (caller : Nat) (now : Nat)
  | completeOk (t : AccessToken)
  | completeErr (msg : Str)
deriving Repr

/-- Modelled from the spec: one step of the cache. Returns the next
state and `true` when the step starts a fresh issuance call. -/
def cacheStep (margin : Nat) (s : CacheState) : CacheOp → CacheState × Bool
  | .arrive c now =>
    match s.cached with
    | some t =>
      if tokenValid margin now t then
        ({ s with results := fun c' => if c' = c then some (.ok t) else s.results c' }, false)
      else
        match s.pending with
        | some ws => ({ s with pending := some (ws ++ [c]) }, false)
        | none => ({ s with pending := some [c] }, true)
    | none =>
      match s.pending with
      | some ws => ({ s with pending := some (ws ++ [c]) }, false)
      | none => ({ s with pending := some [c] }, true)
  | .completeOk t =>
    ({ cached := some t
       pending := none
       results := fun c' =>
         if (s.pending.getD []).contains c' then some (.ok t) else s.results c' }, false)
  | .completeErr m =>
    ({ s with
       pending := none
       results := fun c' =>
         if (s.pending.getD []).contains c' then some (.error m) else s.results c' }, false)

/-- Run a sequence of cache operations, counting issuance calls. -/
def cacheRun (margin : Nat) (s : CacheState) : List CacheOp → CacheState × Nat
  | [] => (s, 0)
  | op :: rest =>
    let (s', issued) := cacheStep margin s op
    let (s'', n) := cacheRun margin s' rest
    (s'', (if issued then 1 else 0) + n)

/-- The empty cache: nothing cached, nothing in flight, no results. -/
def emptyCache : CacheState := ⟨none, none, fun _ => none⟩

/-! ## Helper lemmas about the target grammar -/

lemma qqbotPrefix_eq : qqbotPrefix = ['q', 'q', 'b', 'o', 't', ':'] := rfl

lemma length_of_spells {p : Str} (h : p.map Char.toLower = qqbotPrefix) : p.length = 6 := by
  have := congrArg List.length h
  simpa [qqbotPrefix_eq] using this

/-- Stripping removes exactly a leading spelling (any casing) of
`qqbot:`. -/
lemma stripQQBotPrefix_append_of_spells {p : Str} (rest : Str)
    (h : p.map Char.toLower = qqbotPrefix) :
    stripQQBotPrefix (p ++ rest) = rest := by
  have hl : p.length = 6 := length_of_spells h
  have ht : (p ++ rest).take 6 = p := by
    rw [List.take_append_eq_append_take, hl, Nat.sub_self, List.take_zero,
      List.append_nil, ← hl, List.take_length]
  have hd : (p ++ rest).drop 6 = rest := by
    rw [List.drop_append_eq_append_drop, hl, Nat.sub_self, List.drop_zero,
      ← hl, List.drop_length, List.nil_append]
  rw [stripQQBotPrefix, ht, if_pos h, hd]

/-- A string whose first character does not lowercase to `q` is left
untouched by the prefix strip. -/
lemma stripQQBotPrefix_cons_of_ne {c : Char} (rest : Str) (h : Char.toLower c ≠ 'q') :
    stripQQBotPrefix (c :: rest) = c :: rest := by
  rw [stripQQBotPrefix, if_neg]
  intro hEq
  have h6 : (c :: rest).take 6 = c :: rest.take 5 := rfl
  rw [h6, List.map_cons, qqbotPrefix_eq] at hEq
  exact h (List.cons_eq_cons.mp hEq).1

lemma char_le_toNat {a c : Char} (h : a ≤ c) : a.toNat ≤ c.toNat := by
  simpa [Char.le_def, UInt32.le_def, BitVec.le_def, Char.toNat, UInt32.toNat] using h

/-- No character of the regex class `[A-F0-9]` (case-insensitive)
lowercases to `q`. -/
lemma hexChar_toLower_ne_q {c : Char} (h : isHexChar c = true) : Char.toLower c ≠ 'q' := by
  have hc : c = Char.ofNat c.toNat := (Char.ofNat_toNat c).symm
  simp only [isHexChar, Bool.or_eq_true, Bool.and_eq_true, decide_eq_true_eq] at h
  rcases h with (⟨h1, h2⟩ | ⟨h1, h2⟩) | ⟨h1, h2⟩ <;>
    (have b1 := char_le_toNat h1
     have b2 := char_le_toNat h2
     simp only [show ('0').toNat = 48 from rfl, show ('9').toNat = 57 from rfl,
       show ('A').toNat = 65 from rfl, show ('F').toNat = 70 from rfl,
       show ('a').toNat = 97 from rfl, show ('f').toNat = 102 from rfl] at b1 b2
     interval_cases h : c.toNat <;> (rw [hc]; decide))

lemma stripQQBotPrefix_of_hex {s : Str} (h : isHex32 s = true) :
    stripQQBotPrefix s = s := by
  simp only [isHex32, Bool.and_eq_true, decide_eq_true_eq] at h
  obtain ⟨hlen, hall⟩ := h
  cases s with
  | nil => simp at hlen
  | cons a rest =>
    have ha : isHexChar a = true := by
      have := List.all_eq_true.mp hall a (List.mem_cons_self a rest)
      simpa using this
    exact stripQQBotPrefix_cons_of_ne rest (hexChar_toLower_ne_q ha)

/-- A 32-hex-digit string cannot carry a surface prefix: each prefix
contains `:`, which is not a hex character. -/
lemma c2cPrefix_not_prefixOf_hex {s : Str} (h : isHex32 s = true) :
    c2cPrefix.isPrefixOf s = false := by
  simp only [isHex32, Bool.and_eq_true, decide_eq_true_eq] at h
  simp only [Bool.eq_false_iff, ne_eq, List.isPrefixOf_iff_prefix]
  intro hp
  obtain ⟨t, rfl⟩ := hp
  have := h.2
  rw [List.all_append] at this
  have hfalse : c2cPrefix.all isHexChar = false := by decide
  simp [hfalse] at this

lemma groupPrefix_not_prefixOf_hex {s : Str} (h : isHex32 s = true) :
    groupPrefix.isPrefixOf s = false := by
  simp only [isHex32, Bool.and_eq_true, decide_eq_true_eq] at h
  simp only [Bool.eq_false_iff, ne_eq, List.isPrefixOf_iff_prefix]
  intro hp
  obtain ⟨t, rfl⟩ := hp
  have := h.2
  rw [List.all_append] at this
  have hfalse : groupPrefix.all isHexChar = false := by decide
  simp [hfalse] at this

lemma channelPrefix_not_prefixOf_hex {s : Str} (h : isHex32 s = true) :
    channelPrefix.isPrefixOf s = false := by
  simp only [isHex32, Bool.and_eq_true, decide_eq_true_eq] at h
  simp only [Bool.eq_false_iff, ne_eq, List.isPrefixOf_iff_prefix]
  intro hp
  obtain ⟨t, rfl⟩ := hp
  have := h.2
  rw [List.all_append] at this
  have hfalse : channelPrefix.all isHexChar = false := by decide
  simp [hfalse] at this

/-- `parseTarget` on a string whose normalized form is `c2c:<id>`. -/
lemma parseTarget_of_strip_c2c {d id : Str} (h : stripQQBotPrefix d = c2cPrefix ++ id) :
    parseTarget d = ⟨.c2c, id⟩ := by
  have hp : c2cPrefix.isPrefixOf (c2cPrefix ++ id) = true := by
    simp [List.isPrefixOf_iff_prefix]
  simp only [parseTarget, h, hp, if_true]
  rfl

/-- `parseTarget` on a string whose normalized form is `group:<id>`. -/
lemma parseTarget_of_strip_group {d id : Str} (h : stripQQBotPrefix d = groupPrefix ++ id) :
    parseTarget d = ⟨.group, id⟩ := by
  have hp1 : c2cPrefix.isPrefixOf (groupPrefix ++ id) = false := by
    simp only [Bool.eq_false_iff, ne_eq, List.isPrefixOf_iff_prefix]
    intro hp
    exact absurd (List.cons_prefix_cons.mp hp).1 (by decide)
  have hp2 : groupPrefix.isPrefixOf (groupPrefix ++ id) = true := by
    simp [List.isPrefixOf_iff_prefix]
  simp only [parseTarget, h, hp1, hp2, if_true, Bool.false_eq_true, if_false]
  rfl

/-- `parseTarget` on a string whose normalized form is `channel:<id>`. -/
lemma parseTarget_of_strip_channel {d id : Str} (h : stripQQBotPrefix d = channelPrefix ++ id) :
    parseTarget d = ⟨.channel, id⟩ := by
  have hp1 : c2cPrefix.isPrefixOf (channelPrefix ++ id) = false := by
    simp only [Bool.eq_false_iff, ne_eq, List.isPrefixOf_iff_prefix]
    intro hp
    have h2 := (List.cons_prefix_cons.mp hp).2
    exact absurd (List.cons_prefix_cons.mp h2).1 (by decide)
  have hp2 : groupPrefix.isPrefixOf (channelPrefix ++ id) = false := by
    simp only [Bool.eq_false_iff, ne_eq, List.isPrefixOf_iff_prefix]
    intro hp
    exact absurd (List.cons_prefix_cons.mp hp).1 (by decide)
  have hp3 : channelPrefix.isPrefixOf (channelPrefix ++ id) = true := by
    simp [List.isPrefixOf_iff_prefix]
  simp only [parseTarget, h, hp1, hp2, hp3, if_true, Bool.false_eq_true, if_false]
  rfl

/-- `parseTarget` on a string whose normalized form carries no surface
prefix: the permissive fallback. -/
lemma parseTarget_of_strip_fallback {d n : Str} (h : stripQQBotPrefix d = n)
    (h1 : c2cPrefix.isPrefixOf n = false)
    (h2 : groupPrefix.isPrefixOf n = false)
    (h3 : channelPrefix.isPrefixOf n = false) :
    parseTarget d = ⟨.c2c, n⟩ := by
  simp only [parseTarget, h, h1, h2, h3, Bool.false_eq_true, if_false]

/-- `parseTarget` on a string whose normalized form is a bare
32-hex-digit id. -/
lemma parseTarget_of_strip_hex {d n : Str} (h : stripQQBotPrefix d = n)
    (hx : isHex32 n = true) :
    parseTarget d = ⟨.c2c, n⟩ :=
  parseTarget_of_strip_fallback h (c2cPrefix_not_prefixOf_hex hx)
    (groupPrefix_not_prefixOf_hex hx) (channelPrefix_not_prefixOf_hex hx)

/-! ## Claims about the target grammar (C4, C5, C6) -/

/-- C6: for every id and each of the four accepted address shapes —
`c2c:<id>`, `group:<id>`, `channel:<id>`, and a bare 32-hex-digit id —
with or without the case-insensitive channel-name prefix `qqbot:`,
`parseTarget` succeeds, yields the surface named by the prefix (c2c,
i.e. directMessage, for `c2c:` and for the bare hex form), and returns
the embedded id character-for-character unchanged. -/
theorem parseTarget_roundtrips_four_shapes (p id hx : Str)
    (hp : p.map Char.toLower = qqbotPrefix) (hhex : isHex32 hx = true) :
    parseTarget (c2cPrefix ++ id) = ⟨.c2c, id⟩ ∧
    parseTarget (p ++ (c2cPrefix ++ id)) = ⟨.c2c, id⟩ ∧
    parseTarget (groupPrefix ++ id) = ⟨.group, id⟩ ∧
    parseTarget (p ++ (groupPrefix ++ id)) = ⟨.group, id⟩ ∧
    parseTarget (channelPrefix ++ id) = ⟨.channel, id⟩ ∧
    parseTarget (p ++ (channelPrefix ++ id)) = ⟨.channel, id⟩ ∧
    parseTarget hx = ⟨.c2c, hx⟩ ∧
    parseTarget (p ++ hx) = ⟨.c2c, hx⟩ := by
  refine ⟨?_, ?_, ?_, ?_, ?_, ?_, ?_, ?_⟩
  · exact parseTarget_of_strip_c2c (stripQQBotPrefix_cons_of_ne _ (by decide))
  · exact parseTarget_of_strip_c2c (stripQQBotPrefix_append_of_spells _ hp)
  · exact parseTarget_of_strip_group (stripQQBotPrefix_cons_of_ne _ (by decide))
  · exact parseTarget_of_strip_group (stripQQBotPrefix_append_of_spells _ hp)
  · exact parseTarget_of_strip_channel (stripQQBotPrefix_cons_of_ne _ (by decide))
  · exact parseTarget_of_strip_channel (stripQQBotPrefix_append_of_spells _ hp)
  · exact parseTarget_of_strip_hex (stripQQBotPrefix_of_hex hhex) hhex
  · exact parseTarget_of_strip_hex (stripQQBotPrefix_append_of_spells _ hp) hhex

/-- Witness for C6 at a mixed-case prefix, a concrete id and a
concrete 32-hex id. -/
theorem parseTarget_roundtrips_four_shapes_witness :
    (str "QQboT:").map Char.toLower = qqbotPrefix ∧
    isHex32 (str "0123456789abcdefABCDEF0123456789") = true ∧
    (parseTarget (c2cPrefix ++ str "u1") = ⟨.c2c, str "u1"⟩ ∧
     parseTarget (str "QQboT:" ++ (c2cPrefix ++ str "u1")) = ⟨.c2c, str "u1"⟩ ∧
     parseTarget (groupPrefix ++ str "u1") = ⟨.group, str "u1"⟩ ∧
     parseTarget (str "QQboT:" ++ (groupPrefix ++ str "u1")) = ⟨.group, str "u1"⟩ ∧
     parseTarget (channelPrefix ++ str "u1") = ⟨.channel, str "u1"⟩ ∧
     parseTarget (str "QQboT:" ++ (channelPrefix ++ str "u1")) = ⟨.channel, str "u1"⟩ ∧
     parseTarget (str "0123456789abcdefABCDEF0123456789") =
       ⟨.c2c, str "0123456789abcdefABCDEF0123456789"⟩ ∧
     parseTarget (str "QQboT:" ++ str "0123456789abcdefABCDEF0123456789") =
       ⟨.c2c, str "0123456789abcdefABCDEF0123456789"⟩) :=
  ⟨by decide, by decide,
   parseTarget_roundtrips_four_shapes (str "QQboT:") (str "u1")
     (str "0123456789abcdefABCDEF0123456789") (by decide) (by decide)⟩

/-- C5, counterexample to the claim as stated: `"group:"` and
`"qqbot:^"` both lie outside the accepted grammar (no embedded id,
resp. neither a surface prefix nor hex after stripping), yet
`parseTarget` maps `"group:"` to the group surface — not
directMessage, and not a parse failure — and maps `"qqbot:^"` to a
directMessage target whose id is the prefix-stripped string, not the
raw string. -/
theorem parseTarget_outside_grammar_cex :
    (c2cPrefix.isPrefixOf (stripQQBotPrefix (str "group:")) = false ∧
     groupPrefix.isPrefixOf (stripQQBotPrefix (str "group:")) = true ∧
     (stripQQBotPrefix (str "group:")).length = 6 ∧
     channelPrefix.isPrefixOf (stripQQBotPrefix (str "group:")) = false ∧
     isHex32 (stripQQBotPrefix (str "group:")) = false ∧
     parseTarget (str "group:") = ⟨.group, []⟩ ∧
     Surface.group ≠ Surface.c2c) ∧
    (c2cPrefix.isPrefixOf (stripQQBotPrefix (str "qqbot:^")) = false ∧
     groupPrefix.isPrefixOf (stripQQBotPrefix (str "qqbot:^")) = false ∧
     channelPrefix.isPrefixOf (stripQQBotPrefix (str "qqbot:^")) = false ∧
     isHex32 (stripQQBotPrefix (str "qqbot:^")) = false ∧
     parseTarget (str "qqbot:^") = ⟨.c2c, str "^"⟩ ∧
     str "^" ≠ str "qqbot:^") := by decide

/-- C5 as amended: `parseTarget` never fails; for every raw string
outside the accepted grammar it returns, after stripping the optional
`qqbot:` prefix, the surface named by a (possibly id-less) surface
prefix with the empty id, and otherwise degrades to the documented
directMessage fallback with the prefix-stripped string as id. -/
theorem parseTarget_outside_grammar (s : Str)
    (h1 : ¬(c2cPrefix.isPrefixOf (stripQQBotPrefix s) = true ∧ 4 < (stripQQBotPrefix s).length))
    (h2 : ¬(groupPrefix.isPrefixOf (stripQQBotPrefix s) = true ∧ 6 < (stripQQBotPrefix s).length))
    (h3 : ¬(channelPrefix.isPrefixOf (stripQQBotPrefix s) = true ∧ 8 < (stripQQBotPrefix s).length))
    (h4 : isHex32 (stripQQBotPrefix s) = false) :
    parseTarget s =
      if c2cPrefix.isPrefixOf (stripQQBotPrefix s) then ⟨.c2c, []⟩
      else if groupPrefix.isPrefixOf (stripQQBotPrefix s) then ⟨.group, []⟩
      else if channelPrefix.isPrefixOf (stripQQBotPrefix s) then ⟨.channel, []⟩
      else ⟨.c2c, stripQQBotPrefix s⟩ := by
  by_cases hc : c2cPrefix.isPrefixOf (stripQQBotPrefix s) = true
  · obtain ⟨t, ht⟩ := List.isPrefixOf_iff_prefix.mp hc
    have hlen : (stripQQBotPrefix s).length ≤ 4 := by
      by_contra hgt
      exact h1 ⟨hc, by omega⟩
    have htnil : t = [] := by
      have := congrArg List.length ht
      simp only [List.length_append] at this
      have : (4 : Nat) + t.length = (stripQQBotPrefix s).length := by simpa using this
      have ht0 : t.length = 0 := by omega
      exact List.length_eq_zero.mp ht0
    rw [htnil] at ht
    rw [parseTarget_of_strip_c2c ht.symm]
    simp [hc]
  · simp only [Bool.not_eq_true] at hc
    by_cases hg : groupPrefix.isPrefixOf (stripQQBotPrefix s) = true
    · obtain ⟨t, ht⟩ := List.isPrefixOf_iff_prefix.mp hg
      have hlen : (stripQQBotPrefix s).length ≤ 6 := by
        by_contra hgt
        exact h2 ⟨hg, by omega⟩
      have htnil : t = [] := by
        have := congrArg List.length ht
        simp only [List.length_append] at this
        have : (6 : Nat) + t.length = (stripQQBotPrefix s).length := by simpa using this
        have ht0 : t.length = 0 := by omega
        exact List.length_eq_zero.mp ht0
      rw [htnil] at ht
      rw [parseTarget_of_strip_group ht.symm]
      simp [hc, hg]
    · simp only [Bool.not_eq_true] at hg
      by_cases hch : channelPrefix.isPrefixOf (stripQQBotPrefix s) = true
      · obtain ⟨t, ht⟩ := List.isPrefixOf_iff_prefix.mp hch
        have hlen : (stripQQBotPrefix s).length ≤ 8 := by
          by_contra hgt
          exact h3 ⟨hch, by omega⟩
        have htnil : t = [] := by
          have := congrArg List.length ht
          simp only [List.length_append] at this
          have : (8 : Nat) + t.length = (stripQQBotPrefix s).length := by simpa using this
          have ht0 : t.length = 0 := by omega
          exact List.length_eq_zero.mp ht0
        rw [htnil] at ht
        rw [parseTarget_of_strip_channel ht.symm]
        simp [hc, hg, hch]
      · simp only [Bool.not_eq_true] at hch
        rw [parseTarget_of_strip_fallback rfl hc hg hch, hc, hg, hch]
        simp

/-- Witness for the amended C5 at the concrete input `"foo"`. -/
theorem parseTarget_outside_grammar_witness :
    parseTarget (str "foo") =
      if c2cPrefix.isPrefixOf (stripQQBotPrefix (str "foo")) then ⟨.c2c, []⟩
      else if groupPrefix.isPrefixOf (stripQQBotPrefix (str "foo")) then ⟨.group, []⟩
      else if channelPrefix.isPrefixOf (stripQQBotPrefix (str "foo")) then ⟨.channel, []⟩
      else ⟨.c2c, stripQQBotPrefix (str "foo")⟩ :=
  parseTarget_outside_grammar (str "foo") (by decide) (by decide) (by decide) (by decide)

/-- C4, counterexample to the claim as stated: `parseTarget` accepts
every string (it is total), in particular the bare non-hex string
`"foo"` via the directMessage fallback, but `looksLikeId "foo"` is
`false` — the predicate does not agree with the parser's acceptance
set. -/
theorem looksLikeId_parseTarget_cex :
    looksLikeId (str "foo") = false ∧
    parseTarget (str "foo") = ⟨.c2c, str "foo"⟩ := by decide

/-- C4 as amended: `looksLikeId` agrees with `parseTarget` except on
the permissive fallback: it accepts a string iff `parseTarget` either
resolves it through an explicit surface prefix or through the bare
32-hex-digit form — equivalently, iff whenever `parseTarget` resolves
the string as the directMessage fallback (id equal to the whole
prefix-stripped string), that string is 32-hex. -/
theorem looksLikeId_iff_parseTarget (s : Str) :
    looksLikeId s = true ↔
      ((parseTarget s).type = .c2c ∧ (parseTarget s).id = stripQQBotPrefix s →
        isHex32 (stripQQBotPrefix s) = true) := by
  by_cases hc : c2cPrefix.isPrefixOf (stripQQBotPrefix s) = true
  · obtain ⟨t, ht⟩ := List.isPrefixOf_iff_prefix.mp hc
    have hparse := parseTarget_of_strip_c2c ht.symm
    constructor
    · intro _ hfb
      rw [hparse] at hfb
      have hid := hfb.2
      have := congrArg List.length hid
      rw [← ht] at this
      simp only [List.length_append] at this
      simp only [show c2cPrefix.length = 4 from rfl] at this
      omega
    · intro _
      simp [looksLikeId, hc]
  · simp only [Bool.not_eq_true] at hc
    by_cases hg : groupPrefix.isPrefixOf (stripQQBotPrefix s) = true
    · obtain ⟨t, ht⟩ := List.isPrefixOf_iff_prefix.mp hg
      have hparse := parseTarget_of_strip_group ht.symm
      constructor
      · intro _ hfb
        rw [hparse] at hfb
        exact absurd hfb.1 (by simp)
      · intro _
        simp [looksLikeId, hg]
    · simp only [Bool.not_eq_true] at hg
      by_cases hch : channelPrefix.isPrefixOf (stripQQBotPrefix s) = true
      · obtain ⟨t, ht⟩ := List.isPrefixOf_iff_prefix.mp hch
        have hparse := parseTarget_of_strip_channel ht.symm
        constructor
        · intro _ hfb
          rw [hparse] at hfb
          exact absurd hfb.1 (by simp)
        · intro _
          simp [looksLikeId, hch]
      · simp only [Bool.not_eq_true] at hch
        have hparse := parseTarget_of_strip_fallback rfl hc hg hch
        constructor
        · intro hl _
          simp only [looksLikeId, hc, hg, hch, Bool.false_eq_true, if_false,
            Bool.or_self, Bool.or_false, Bool.false_or] at hl
          split at hl
          · assumption
          · exact absurd hl (by simp)
        · intro himp
          have hx := himp (by rw [hparse]; exact ⟨rfl, rfl⟩)
          simp [looksLikeId, hx]

/-- Witness for the amended C4 at a concrete 32-hex input. -/
theorem looksLikeId_iff_parseTarget_witness :
    looksLikeId (str "0123456789abcdefABCDEF0123456789") = true :=
  (looksLikeId_iff_parseTarget (str "0123456789abcdefABCDEF0123456789")).mpr (by decide)

/-! ## Claims about the outbound dispatcher (C1, C2, C3, C7, C10) -/

/-- C3, counterexample to the claim as stated: for an account with no
`appId`, `sendText` does return a not-configured outcome with no
network calls, but its error string is the full message
`"QQBot not configured (missing appId or clientSecret)"`, not the
claim's exact string `"not configured"`. -/
theorem sendText_not_configured_cex :
    (sendText okClient ⟨str "c2c:U", str "hi", none, none,
        ⟨str "default", true, none, some (str "sec"), none⟩⟩).1.error =
      some notConfiguredMsg ∧
    (sendText okClient ⟨str "c2c:U", str "hi", none, none,
        ⟨str "default", true, none, some (str "sec"), none⟩⟩).2 = [] ∧
    notConfiguredMsg ≠ str "not configured" := by decide

/-- C3 as amended: for every account in which `appId` or
`clientSecret` is absent, `sendText` returns the not-configured error
outcome (message `"QQBot not configured (missing appId or
clientSecret)"`) and performs no network activity: the recorded call
trace is empty, so neither token issuance nor any send operation is
invoked. -/
theorem sendText_not_configured (client : Client) (dest text : Str)
    (aid rid : Option Str) (acc : ResolvedQQBotAccount)
    (h : acc.appId = none ∨ acc.clientSecret = none) :
    sendText client ⟨dest, text, aid, rid, acc⟩ =
      (⟨qqbotChannel, none, none, some notConfiguredMsg⟩, []) := by
  rcases h with h | h <;> simp [sendText, h, truthy]

/-- Witness for the amended C3: an account missing `appId`. -/
theorem sendText_not_configured_witness :
    ((⟨str "default", true, none, some (str "sec"), none⟩ :
        ResolvedQQBotAccount).appId = none ∨
      (⟨str "default", true, none, some (str "sec"), none⟩ :
        ResolvedQQBotAccount).clientSecret = none) ∧
    sendText okClient ⟨str "c2c:U", str "hi", none, none,
        ⟨str "default", true, none, some (str "sec"), none⟩⟩ =
      (⟨qqbotChannel, none, none, some notConfiguredMsg⟩, []) :=
  ⟨Or.inl rfl,
   sendText_not_configured okClient (str "c2c:U") (str "hi") none none _ (Or.inl rfl)⟩

/-- Success and failure outcomes of one send operation are mutually
exclusive in the `messageId`/`error` fields. -/
lemma mkOutcome_exclusive (r : Except Str ApiMsgResult) :
    (mkOutcome r).messageId.isSome = (mkOutcome r).error.isNone := by
  cases r <;> rfl

/-- C7: every outcome returned by `sendText`, for every input and
every behaviour of the platform client, has exactly one of
`messageId` and `error` present: `messageId` is present iff `error`
is absent. -/
theorem sendText_outcome_exclusive (client : Client) (ctx : OutboundContext) :
    (sendText client ctx).1.messageId.isSome = (sendText client ctx).1.error.isNone := by
  rcases ctx with ⟨dest, text, aid, rid, acc⟩
  simp only [sendText]
  by_cases hconf : (!truthy acc.appId || !truthy acc.clientSecret) = true
  · simp [hconf]
  · simp only [Bool.not_eq_true] at hconf
    simp only [hconf, Bool.false_eq_true, if_false]
    cases hG : client.getAccessToken (acc.appId.getD []) (acc.clientSecret.getD []) with
    | error m => simp
    | ok tok =>
      by_cases hr : (!truthy rid) = true <;>
        [skip; simp only [Bool.not_eq_true] at hr] <;>
        simp only [hr, if_true, Bool.false_eq_true, if_false] <;>
        cases (parseTarget dest).type <;>
        exact mkOutcome_exclusive _

/-- C10: the standalone proactive entry point and the proactive branch
of the dispatcher are equivalent: for every account, target string,
text and client behaviour, `sendProactiveMessage account dest text`
returns exactly what `sendText` returns with the same arguments and
no `replyToId` — the same outcome and even the same call trace. -/
theorem sendProactiveMessage_eq_sendText (client : Client)
    (acc : ResolvedQQBotAccount) (dest text : Str) (aid : Option Str) :
    sendProactiveMessage client acc dest text =
      sendText client ⟨dest, text, aid, none, acc⟩ := by
  simp only [sendText, sendProactiveMessage]
  by_cases hconf : (!truthy acc.appId || !truthy acc.clientSecret) = true
  · simp [hconf]
  · simp only [Bool.not_eq_true] at hconf
    simp only [hconf, Bool.false_eq_true, if_false]
    cases hG : client.getAccessToken (acc.appId.getD []) (acc.clientSecret.getD []) with
    | error m => rfl
    | ok tok =>
      cases (parseTarget dest).type <;> simp [truthy]

/-- C1, counterexample to the claim as stated: with a present but
empty `replyToId` (`some ""`, which is present in the
`string | null | undefined` sense), `sendText` on a c2c target takes
the proactive path — it invokes `sendProactiveC2CMessage`, which is
not the passive-reply operation — because the code tests JavaScript
truthiness (`!replyToId`), not presence. -/
theorem sendText_dispatch_cex :
    (some ([] : Str)).isSome = true ∧
    (sendText okClient ⟨str "c2c:U", str "hi", none, some [], sampleAccount⟩).2 =
      [.getAccessToken (str "app") (str "sec"),
       .sendProactiveC2C (str "TOK") (str "U") (str "hi")] ∧
    ∀ t i x r, ApiCall.sendProactiveC2C (str "TOK") (str "U") (str "hi") ≠
      ApiCall.sendC2C t i x r := by
  refine ⟨by decide, by decide, ?_⟩
  intro t i x r h
  exact ApiCall.noConfusion h

/-- C1 as amended: for every configured account, target string and
text, once the token is issued, `sendText` with an absent or empty
`replyToId` invokes the surface-specific proactive send operation for
the c2c (directMessage) and group surfaces and the plain send
operation for the channel surface, while `sendText` with a present
non-empty `replyToId` invokes the surface-specific passive-reply
operation for all three surfaces, passing `replyToId` through. -/
theorem sendText_dispatch (client : Client) (acc : ResolvedQQBotAccount)
    (dest text : Str) (aid rid : Option Str) (tok : Str)
    (hA : truthy acc.appId = true) (hS : truthy acc.clientSecret = true)
    (hT : client.getAccessToken (acc.appId.getD []) (acc.clientSecret.getD []) = .ok tok) :
    (sendText client ⟨dest, text, aid, rid, acc⟩).2 =
      [ApiCall.getAccessToken (acc.appId.getD []) (acc.clientSecret.getD []),
       if truthy rid then
         match parseTarget dest with
         | ⟨.c2c, i⟩ => .sendC2C tok i text rid
         | ⟨.group, i⟩ => .sendGroup tok i text rid
         | ⟨.channel, i⟩ => .sendChannel tok i text rid
       else
         match parseTarget dest with
         | ⟨.c2c, i⟩ => .sendProactiveC2C tok i text
         | ⟨.group, i⟩ => .sendProactiveGroup tok i text
         | ⟨.channel, i⟩ => .sendChannel tok i text none] := by
  simp only [sendText, hA, hS, Bool.not_true, Bool.or_self, Bool.false_eq_true, if_false]
  rw [hT]
  cases hp : parseTarget dest with
  | mk ty i =>
    by_cases hr : truthy rid = true
    · simp only [hr, Bool.not_true, Bool.false_eq_true, if_false, if_true, hp]
      cases ty <;> rfl
    · simp only [Bool.not_eq_true] at hr
      simp only [hr, Bool.not_false, if_true, Bool.false_eq_true, if_false, hp]
      cases ty <;> rfl

/-- Witness for the amended C1: the passive group-reply scenario of
the spec (`to = "group:G1"`, `replyToId = "msg-42"`). -/
theorem sendText_dispatch_witness :
    truthy sampleAccount.appId = true ∧
    truthy sampleAccount.clientSecret = true ∧
    okClient.getAccessToken (sampleAccount.appId.getD [])
      (sampleAccount.clientSecret.getD []) = .ok (str "TOK") ∧
    (sendText okClient
        ⟨str "group:G1", str "hi", none, some (str "msg-42"), sampleAccount⟩).2 =
      [ApiCall.getAccessToken (sampleAccount.appId.getD [])
        (sampleAccount.clientSecret.getD []),
       if truthy (some (str "msg-42")) then
         match parseTarget (str "group:G1") with
         | ⟨.c2c, i⟩ => .sendC2C (str "TOK") i (str "hi") (some (str "msg-42"))
         | ⟨.group, i⟩ => .sendGroup (str "TOK") i (str "hi") (some (str "msg-42"))
         | ⟨.channel, i⟩ => .sendChannel (str "TOK") i (str "hi") (some (str "msg-42"))
       else
         match parseTarget (str "group:G1") with
         | ⟨.c2c, i⟩ => .sendProactiveC2C (str "TOK") i (str "hi")
         | ⟨.group, i⟩ => .sendProactiveGroup (str "TOK") i (str "hi")
         | ⟨.channel, i⟩ => .sendChannel (str "TOK") i (str "hi") none] :=
  ⟨by decide, by decide, rfl,
   sendText_dispatch okClient sampleAccount (str "group:G1") (str "hi") none
     (some (str "msg-42")) (str "TOK") (by decide) (by decide) rfl⟩

/-- The error of a composite dispatch equals the error of one of its
two recorded calls when the first call succeeds. -/
lemma mkOutcome_error_iff (client : Client) (tc sc : ApiCall)
    (res : Except Str ApiMsgResult) (m : Str)
    (htc : callErr client tc = none)
    (hsc : callErr client sc =
      (match res with | .error e => some e | .ok _ => none)) :
    ((mkOutcome res).error = some m ↔ ∃ c ∈ [tc, sc], callErr client c = some m) := by
  cases res with
  | ok r => simp [mkOutcome, htc, hsc]
  | error e => simp [mkOutcome, htc, hsc]

/-- C2: for every configured account, every input and every behaviour
of the platform client, `sendText` returns (it is a total function, so
no exception crosses its boundary), and its outcome carries `error =
some m` exactly when one of the platform calls it actually performed
threw an exception with message `m` — the exception's message is
preserved in the outcome. -/
theorem sendText_error_iff_client_error (client : Client)
    (acc : ResolvedQQBotAccount) (dest text : Str) (aid rid : Option Str) (m : Str)
    (hA : truthy acc.appId = true) (hS : truthy acc.clientSecret = true) :
    (sendText client ⟨dest, text, aid, rid, acc⟩).1.error = some m ↔
      ∃ c ∈ (sendText client ⟨dest, text, aid, rid, acc⟩).2,
        callErr client c = some m := by
  simp only [sendText, hA, hS, Bool.not_true, Bool.or_self, Bool.false_eq_true, if_false]
  cases hG : client.getAccessToken (acc.appId.getD []) (acc.clientSecret.getD []) with
  | error e => simp [callErr, hG]
  | ok tok =>
    by_cases hr : (!truthy rid) = true <;>
      [skip; simp only [Bool.not_eq_true] at hr] <;>
      simp only [hr, if_true, Bool.false_eq_true, if_false] <;>
      cases (parseTarget dest).type <;>
      exact mkOutcome_error_iff client _ _ _ m (by simp [callErr, hG]) rfl

/-- Witness for C2: a client whose token issuance throws `"boom"`;
the outcome's error is exactly that message, attached to the recorded
issuance call. -/
theorem sendText_error_iff_client_error_witness :
    truthy sampleAccount.appId = true ∧
    truthy sampleAccount.clientSecret = true ∧
    ((sendText tokenErrClient
        ⟨str "c2c:U", str "hi", none, none, sampleAccount⟩).1.error =
          some (str "boom") ↔
      ∃ c ∈ (sendText tokenErrClient
        ⟨str "c2c:U", str "hi", none, none, sampleAccount⟩).2,
        callErr tokenErrClient c = some (str "boom")) :=
  ⟨by decide, by decide,
   sendText_error_iff_client_error tokenErrClient sampleAccount (str "c2c:U")
     (str "hi") none none (str "boom") (by decide) (by decide)⟩

/-! ## Claims about status and the token cache (C8, C9) -/

/-- The gateway callback writes preserve the `connected => running`
invariant from any state satisfying it. -/
lemma applyEvents_inv (evs : List GatewayEvent) (s : SessionRuntime)
    (h : s.connected = true → s.running = true) :
    (applyEvents evs s).connected = true → (applyEvents evs s).running = true := by
  induction evs generalizing s with
  | nil => exact h
  | cons e rest ih =>
    cases e with
    | ready now => exact ih _ (fun _ => rfl)
    | gwError m => exact ih _ h

/-- C9: every session status the plugin produces satisfies
`connected => running`: the default runtime, every status reached from
it by any sequence of gateway `onReady`/`onError` callback writes, and
every snapshot `buildAccountSnapshot` builds from such a runtime (or
from an absent one). -/
theorem session_status_invariant (evs : List GatewayEvent)
    (acc : Option ResolvedQQBotAccount) :
    (defaultRuntime.connected = true → defaultRuntime.running = true) ∧
    ((applyEvents evs defaultRuntime).connected = true →
      (applyEvents evs defaultRuntime).running = true) ∧
    ((buildAccountSnapshot acc (some (applyEvents evs defaultRuntime))).connected = true →
      (buildAccountSnapshot acc (some (applyEvents evs defaultRuntime))).running = true) ∧
    ((buildAccountSnapshot acc none).connected = true →
      (buildAccountSnapshot acc none).running = true) := by
  have hrun := applyEvents_inv evs defaultRuntime (by intro h; cases h)
  refine ⟨(by intro h; cases h), hrun, ?_, ?_⟩
  · intro h
    simp only [buildAccountSnapshot, Option.map_some, Option.getD_some] at h ⊢
    exact hrun h
  · intro h
    simp [buildAccountSnapshot] at h

/-- Witness for C9: after a `ready` callback the runtime is connected,
and the invariant forces `running`. -/
theorem session_status_invariant_witness :
    (applyEvents [GatewayEvent.ready 5] defaultRuntime).connected = true ∧
    (applyEvents [GatewayEvent.ready 5] defaultRuntime).running = true :=
  ⟨by decide, (session_status_invariant [GatewayEvent.ready 5] none).2.1 (by decide)⟩

/-- C8 (access-token cache, modelled from the spec): when two distinct
callers request a token for the same credential key while no token is
cached, then — in either arrival order — exactly one issuance call is
started and, once it completes, both callers receive the same token;
moreover an issuance is ever started only when no issuance for that
key is already in flight (so at most one is in flight at any time,
`pending` being a single optional flight). -/
theorem cache_coalesces (margin : Nat) (c1 c2 n1 n2 : Nat) (t : AccessToken)
    (hne : c1 ≠ c2) :
    ((cacheRun margin emptyCache
        [.arrive c1 n1, .arrive c2 n2, .completeOk t]).2 = 1 ∧
     (cacheRun margin emptyCache
        [.arrive c1 n1, .arrive c2 n2, .completeOk t]).1.results c1 = some (.ok t) ∧
     (cacheRun margin emptyCache
        [.arrive c1 n1, .arrive c2 n2, .completeOk t]).1.results c2 = some (.ok t)) ∧
    ((cacheRun margin emptyCache
        [.arrive c2 n2, .arrive c1 n1, .completeOk t]).2 = 1 ∧
     (cacheRun margin emptyCache
        [.arrive c2 n2, .arrive c1 n1, .completeOk t]).1.results c1 = some (.ok t) ∧
     (cacheRun margin emptyCache
        [.arrive c2 n2, .arrive c1 n1, .completeOk t]).1.results c2 = some (.ok t)) ∧
    (∀ (s : CacheState) (c now : Nat),
      (cacheStep margin s (.arrive c now)).2 = true → s.pending = none) := by
  refine ⟨⟨?_, ?_, ?_⟩, ⟨?_, ?_, ?_⟩, ?_⟩
  · simp [cacheRun, cacheStep, emptyCache]
  · simp [cacheRun, cacheStep, emptyCache]
  · simp [cacheRun, cacheStep, emptyCache]
  · simp [cacheRun, cacheStep, emptyCache]
  · simp [cacheRun, cacheStep, emptyCache]
  · simp [cacheRun, cacheStep, emptyCache]
  · intro s c now h
    rcases s with ⟨cached, pending, results⟩
    cases cached with
    | none =>
      cases pending with
      | none => rfl
      | some ws => simp [cacheStep] at h
    | some tk =>
      cases pending with
      | none => rfl
      | some ws =>
        exfalso
        simp only [cacheStep] at h
        split at h <;> simp at h

/-- Witness for C8 at concrete callers 0 and 1 and a concrete
token. -/
theorem cache_coalesces_witness :
    (0 : Nat) ≠ 1 ∧
    (((cacheRun 0 emptyCache
        [.arrive 0 0, .arrive 1 0, .completeOk ⟨str "T", 10⟩]).2 = 1 ∧
      (cacheRun 0 emptyCache
        [.arrive 0 0, .arrive 1 0, .completeOk ⟨str "T", 10⟩]).1.results 0 =
          some (.ok ⟨str "T", 10⟩) ∧
      (cacheRun 0 emptyCache
        [.arrive 0 0, .arrive 1 0, .completeOk ⟨str "T", 10⟩]).1.results 1 =
          some (.ok ⟨str "T", 10⟩)) ∧
     ((cacheRun 0 emptyCache
        [.arrive 1 0, .arrive 0 0, .completeOk ⟨str "T", 10⟩]).2 = 1 ∧
      (cacheRun 0 emptyCache
        [.arrive 1 0, .arrive 0 0, .completeOk ⟨str "T", 10⟩]).1.results 0 =
          some (.ok ⟨str "T", 10⟩) ∧
      (cacheRun 0 emptyCache
        [.arrive 1 0, .arrive 0 0, .completeOk ⟨str "T", 10⟩]).1.results 1 =
          some (.ok ⟨str "T", 10⟩)) ∧
     (∀ (s : CacheState) (c now : Nat),
       (cacheStep 0 s (.arrive c now)).2 = true → s.pending = none)) :=
  ⟨by decide, cache_coalesces 0 0 1 0 0 ⟨str "T", 10⟩ (by decide)⟩

end QQBot
